import Mathlib

/-
  Shallow embedding of the event matching and dispatch engine of
  midi2keystroke.py (repository elewarr/midi2keystroke), together with the
  status-resolution part of configuration loading and the key dispatch
  sequencing of do_command / sendKey.

  Conventions:
  * Python ints are modelled as Lean Int.  Python `%` on a positive modulus
    agrees with Int.emod, which is what Lean `%` on Int computes.
  * A Python value that may be None is an Option.
  * A Python code path that raises an exception is an Except error.
-/

namespace Midi2Keystroke

/- Status constants, from rtmidi.midiconstants (imported at the top of
   midi2keystroke.py). -/

def NOTE_OFF : Int := 0x80

def NOTE_ON : Int := 0x90

def POLY_PRESSURE : Int := 0xA0

def CONTROLLER_CHANGE : Int := 0xB0

def PROGRAM_CHANGE : Int := 0xC0

def CHANNEL_PRESSURE : Int := 0xD0

def PITCH_BEND : Int := 0xE0

/- Action type constants (midi2keystroke.py lines 67-69):
   KEY_UP = 1, KEY_DOWN = 2, KEY_DOWN_UP = KEY_UP | KEY_DOWN = 3. -/

def KEY_UP : Int := 1

def KEY_DOWN : Int := 2

def KEY_DOWN_UP : Int := 3

/-- The `data` attribute of a KeyStroke after `KeyStroke.__init__` ran:
either Python None, a single int, or a list of ints produced by
`[int(n) for n in data.split()]`. -/
inductive KSData where
  | none
  | single (n : Int)
  | list (l : List Int)
  deriving DecidableEq, Repr

/-- A constructed KeyStroke object (midi2keystroke.py lines 72-86).  The
`status` attribute keeps the raw configuration value; the claims exercise
only string statuses (YAML status names or numeric strings).  A non-string
status value would crash Python at `cmd.status.strip()` in load_config, a
path outside every claim. -/
structure KeyStroke where
  name : String
  description : String
  status : String
  channel : Option Int
  data : KSData
  keys : List String
  deriving DecidableEq, Repr

/-- Model of self.keystrokes: a Python dict from resolved status (an int from
STATUS_MAP, or None when resolution failed) to the list of KeyStrokes
appended under that key, modelled as an association list with unique keys
in insertion order. -/
abbrev RuleSet := List (Option Int × List KeyStroke)

/-- Python `d.get(k, [])` on the keystrokes dict: the value of the first
entry with the given key (keys are unique in a dict), or the empty list. -/
def dictGet : RuleSet → Option Int → List KeyStroke
  | [], _ => []
  | p :: rest, k => if p.1 == k then p.2 else dictGet rest k

/-- Python `d.setdefault(k, []).append(c)`. -/
def dictAppend (rs : RuleSet) (k : Option Int) (c : KeyStroke) : RuleSet :=
  if rs.any (fun p => p.1 == k) then
    rs.map (fun p => if p.1 == k then (p.1, p.2 ++ [c]) else p)
  else
    rs ++ [(k, [c])]

/-- Removal of one key from the dict.  Not part of the source; used only to
state that lookups never consult a given bucket. -/
def removeKey : RuleSet → Option Int → RuleSet
  | [], _ => []
  | p :: rest, k => if p.1 == k then removeKey rest k else p :: removeKey rest k

/- ---------------------------------------------------------------------
   Matcher: MidiInputHandler.lookup_command (lines 132-149)
   --------------------------------------------------------------------- -/

/-- The normalization prefix of lookup_command (lines 134-139):

    if status == NOTE_OFF: status = NOTE_ON
    elif status == CONTROLLER_CHANGE and data2 < 64: data2 = 63
    elif status == CONTROLLER_CHANGE and data2 > 64: data2 = 65

For a ControllerChange status with data2 = None, Python evaluates
`None < 64` and raises TypeError: that path is the error case. -/
def normalize (status : Int) (data2 : Option Int) : Except Unit (Int × Option Int) :=
  if status == NOTE_OFF then Except.ok (NOTE_ON, data2)
  else if status == CONTROLLER_CHANGE then
    match data2 with
    | Option.none => Except.error ()
    | some v =>
      if v < 64 then Except.ok (status, some 63)
      else if 64 < v then Except.ok (status, some 65)
      else Except.ok (status, data2)
  else Except.ok (status, data2)

/-- Python `keystroke.data == data1` where data1 is an int or None:
None == None is True, int == int compares, a list compares unequal to an
int or None. -/
def ksdataEq : KSData → Option Int → Bool
  | KSData.none, Option.none => true
  | KSData.single n, some m => n == m
  | _, _ => false

/-- Python `keystroke.data[0] == data1 and keystroke.data[1] == data2` with
short-circuit evaluation; indexing past the end of the list raises
IndexError (the error case). -/
def pair_match : List Int → Option Int → Option Int → Except Unit Bool
  | [], _, _ => Except.error ()
  | [a], d1, _ => if some a == d1 then Except.error () else Except.ok false
  | a :: b :: _, d1, d2 => Except.ok (some a == d1 && some b == d2)

/-- The per-rule matching test of the loop body (lines 145-149):

    if status == NOTE_ON and keystroke.data == data1: return keystroke
    elif (isinstance(keystroke.data, list) and
          keystroke.data[0] == data1 and keystroke.data[1] == data2):
        return keystroke
-/
def rule_body (st : Int) (d1 d2 : Option Int) (k : KeyStroke) : Except Unit Bool :=
  if st == NOTE_ON && ksdataEq k.data d1 then Except.ok true
  else
    match k.data with
    | KSData.list l => pair_match l d1 d2
    | _ => Except.ok false

/-- One loop iteration including the channel filter (lines 142-143):

    if channel is not None and keystroke.channel != channel: continue
-/
def rule_step (st : Int) (ch d1 d2 : Option Int) (k : KeyStroke) : Except Unit Bool :=
  match ch with
  | Option.none => rule_body st d1 d2 k
  | some c =>
    if k.channel == some c then rule_body st d1 d2 k else Except.ok false

/-- The `for keystroke in self.keystrokes.get(status, [])` loop: first rule
whose test returns true; falling off the loop returns None. -/
def find_match (st : Int) (ch d1 d2 : Option Int) : List KeyStroke → Except Unit (Option KeyStroke)
  | [] => Except.ok Option.none
  | k :: rest =>
    match rule_step st ch d1 d2 k with
    | Except.error e => Except.error e
    | Except.ok true => Except.ok (some k)
    | Except.ok false => find_match st ch d1 d2 rest

/-- MidiInputHandler.lookup_command (lines 132-149).  The lru_cache
decorator memoizes a function that is pure in its four arguments given a
fixed keystrokes dict, so it does not change the value computed. -/
def lookup_command (rs : RuleSet) (status : Int) (channel d1 d2 : Option Int) :
    Except Unit (Option KeyStroke) :=
  match normalize status d2 with
  | Except.error e => Except.error e
  | Except.ok (st, d2n) => find_match st channel d1 d2n (dictGet rs (some st))

/- ---------------------------------------------------------------------
   Configuration loading: STATUS_MAP (lines 57-65), KeyStroke.__init__
   (lines 72-86) and the status-resolution part of load_config
   (lines 179-199)
   --------------------------------------------------------------------- -/

/- Structural models of the Python string primitives used by the loader
(str.strip, str.lower, str.split, int).  The Lean standard library string
functions are bypassed because several of them do not reduce inside the
kernel; these definitions work on the underlying character lists. -/

/-- Drop leading whitespace characters. -/
def dropWhileWS : List Char → List Char
  | [] => []
  | c :: cs => if c.isWhitespace then dropWhileWS cs else c :: cs

/-- Drop whitespace from both ends. -/
def stripChars (l : List Char) : List Char :=
  (dropWhileWS (dropWhileWS l).reverse).reverse

/-- Python str.strip() with no argument. -/
def pyStrip (s : String) : String := String.mk (stripChars s.data)

/-- Python str.lower() restricted to ASCII, which covers every status name
of STATUS_MAP. -/
def pyLower (s : String) : String := String.mk (s.data.map Char.toLower)

/-- Accumulate a decimal digit string; fails at the first non-digit. -/
def digitsValAux : List Char → Nat → Option Nat
  | [], acc => some acc
  | c :: cs, acc => if c.isDigit then digitsValAux cs (acc * 10 + (c.toNat - 48)) else Option.none

/-- Python int(str) on an already stripped character list: an optional
minus sign followed by at least one decimal digit.  Python additionally
accepts a leading plus sign and underscores between digits, a difference no
claim touches. -/
def pyToInt : List Char → Option Int
  | [] => Option.none
  | '-' :: cs =>
    match cs with
    | [] => Option.none
    | _ => (digitsValAux cs 0).map (fun v => -(v : Int))
  | cs => (digitsValAux cs 0).map (fun v => (v : Int))

/-- Helper for Python str.split(): accumulate the current word while
scanning. -/
def wordsAux : List Char → List Char → List (List Char)
  | [], cur => if cur.isEmpty then [] else [cur.reverse]
  | c :: cs, cur =>
    if c.isWhitespace then
      if cur.isEmpty then wordsAux cs [] else cur.reverse :: wordsAux cs []
    else wordsAux cs (c :: cur)

/-- Python `s.split()`: split on whitespace runs, dropping empty pieces. -/
def pySplit (s : String) : List String := (wordsAux s.data []).map String.mk

/-- STATUS_MAP (lines 57-65). -/
def STATUS_MAP : List (String × Int) :=
  [("noteon", NOTE_ON),
   ("noteoff", NOTE_OFF),
   ("programchange", PROGRAM_CHANGE),
   ("controllerchange", CONTROLLER_CHANGE),
   ("pitchbend", PITCH_BEND),
   ("polypressure", POLY_PRESSURE),
   ("channelpressure", CHANNEL_PRESSURE)]

/-- Python `STATUS_MAP.get(s)`. -/
def statusMapGet (s : String) : Option Int :=
  (STATUS_MAP.find? (fun p => p.1 == s)).map (fun p => p.2)

/-- Python `STATUS_MAP.get(cmd.status.strip().lower())` (line 189). -/
def resolve_status (s : String) : Option Int :=
  statusMapGet (pyLower (pyStrip s))

/-- Whether Python `int(s)` succeeds on a status string (line 193);
int() strips surrounding whitespace itself. -/
def pyIntParses (s : String) : Bool :=
  (pyToInt (stripChars s.data)).isSome

/-- True exactly when load_config reaches `log.error("Unknown status ...
Ignoring command")` for a rule with this status string (lines 191-196). -/
def status_error (s : String) : Bool :=
  (resolve_status s).isNone && !(pyIntParses s)

/-- The `data` field as delivered by the YAML parser to KeyStroke.__init__:
None, an int, or a string; other YAML types raise TypeError, a path outside
every claim. -/
inductive YamlVal where
  | vnone
  | vint (n : Int)
  | vstr (s : String)
  deriving DecidableEq, Repr

/-- One rule record of the configuration file, as passed to
`KeyStroke(**cmdspec)`: the dict branch of load_config (line 181), which
requires the keys field. -/
structure CmdSpec where
  name : String
  description : String
  status : String
  channel : Option Int
  data : YamlVal
  keys : String
  deriving DecidableEq, Repr

/-- Python `[int(n) for n in data.split()]`: None when some token makes
int() raise ValueError. -/
def parse_tokens : List String → Option (List Int)
  | [] => some []
  | t :: ts =>
    match pyToInt t.data, parse_tokens ts with
    | some n, some l => some (n :: l)
    | _, _ => Option.none

/-- The data-field handling of KeyStroke.__init__ (lines 81-86); a
ValueError from int() is the error case, which load_config converts into a
fatal IOError. -/
def parse_data : YamlVal → Except Unit KSData
  | YamlVal.vnone => Except.ok KSData.none
  | YamlVal.vint n => Except.ok (KSData.single n)
  | YamlVal.vstr s =>
    match parse_tokens (pySplit s) with
    | some l => Except.ok (KSData.list l)
    | Option.none => Except.error ()

/-- The KeyStroke object built from a spec whose data field parsed to d. -/
def mkKeyStroke (c : CmdSpec) (d : KSData) : KeyStroke :=
  { name := c.name
    description := c.description
    status := c.status
    channel := c.channel
    data := d
    keys := pySplit c.keys }

/-- One iteration of the load_config loop (lines 179-199): construct the
KeyStroke (a TypeError/ValueError becomes a fatal IOError, line 187), then
resolve the status name and append the rule under the resolved key.  When
resolution fails, the code logs an error if int() also fails, but in every
case still appends the rule, under the key None. -/
def load_step (rs : RuleSet) (c : CmdSpec) : Except String RuleSet :=
  match parse_data c.data with
  | Except.error _ => Except.error "Invalid command specification"
  | Except.ok d => Except.ok (dictAppend rs (resolve_status c.status) (mkKeyStroke c d))

def load_config_aux (rs : RuleSet) : List CmdSpec → Except String RuleSet
  | [] => Except.ok rs
  | c :: cs =>
    match load_step rs c with
    | Except.error e => Except.error e
    | Except.ok rs2 => load_config_aux rs2 cs

/-- MidiInputHandler.load_config (lines 172-199) on an already parsed YAML
document, starting from the empty keystrokes dict set up in __init__. -/
def load_config (specs : List CmdSpec) : Except String RuleSet :=
  load_config_aux [] specs

/-- The statuses of the rules for which load_config emits the
`log.error("Unknown status ...")` report. -/
def load_errors (specs : List CmdSpec) : List String :=
  (specs.filter (fun c => status_error c.status)).map (fun c => c.status)

/- ---------------------------------------------------------------------
   EventDecoder: the head of MidiInputHandler.__call__ (lines 96-113)
   --------------------------------------------------------------------- -/

structure DecodedEvent where
  status : Int
  channel : Option Int
  data1 : Option Int
  data2 : Option Int
  deriving DecidableEq, Repr

/-- Decoding of a raw event byte list (lines 100-113).  For every integer
b, Python `b & 0xF0` equals `b % 256 - b % 16` and `b & 0xF` equals
`b % 16` (bits 0-7 of b are b mod 256, bits 0-3 are b mod 16), and Lean
`%` on Int is the euclidean mod, which agrees with Python `%` for the
positive moduli used here.  An empty event raises IndexError at event[0]
(the none case). -/
def decode_event : List Int → Option DecodedEvent
  | [] => Option.none
  | b0 :: rest =>
    some
      { status := if b0 < 0xF0 then b0 % 256 - b0 % 16 else b0
        channel := if b0 < 0xF0 then some (b0 % 16 + 1) else Option.none
        data1 := rest.get? 0
        data2 := rest.get? 1 }

/- ---------------------------------------------------------------------
   ActionSequencer: do_command (lines 151-170) over the sendKey
   collaborator, and the action-type derivation of __call__ (lines 119-128)
   --------------------------------------------------------------------- -/

/-- Action-type derivation (lines 122-126):

    action_type = KEY_DOWN
    if status == NOTE_OFF: action_type = KEY_UP
    if status == CONTROLLER_CHANGE: action_type = KEY_DOWN_UP
-/
def action_type_of (status : Int) : Int :=
  let a := KEY_DOWN
  let a2 := if status == NOTE_OFF then KEY_UP else a
  if status == CONTROLLER_CHANGE then KEY_DOWN_UP else a2

/-- The key-injection collaborator (module sendKey): key-name resolution
(SetKeyboardConsts, which reads keybindings.json and can raise) and the
press/release injection calls.  Each primitive either succeeds or raises. -/
structure KeyEnv where
  const : String → Except Unit Int
  pressK : Int → Except Unit Unit
  releaseK : Int → Except Unit Unit

/-- A collaborator on which every call succeeds. -/
def okEnv : KeyEnv :=
  { const := fun _ => Except.ok 0
    pressK := fun _ => Except.ok ()
    releaseK := fun _ => Except.ok () }

/-- A collaborator on which key-name resolution always raises. -/
def badEnv : KeyEnv :=
  { const := fun _ => Except.error ()
    pressK := fun _ => Except.error ()
    releaseK := fun _ => Except.error () }

/-- Observable steps of a dispatch: a PressKey call for a named key, the
time.sleep(0.01) delay (10 ms), a ReleaseKey call. -/
inductive Act where
  | press (k : String)
  | sleep10
  | release (k : String)
  deriving DecidableEq, Repr

/-- The press loop of do_command (lines 154-158): for each key resolve the
code then inject; the value is the trace of injection calls made, and the
error case (carrying the partial trace) is an exception escaping the loop. -/
def press_loop (env : KeyEnv) : List String → Except (List Act) (List Act)
  | [] => Except.ok []
  | k :: rest =>
    match env.const k with
    | Except.error _ => Except.error []
    | Except.ok code =>
      match env.pressK code with
      | Except.error _ => Except.error [Act.press k]
      | Except.ok _ =>
        match press_loop env rest with
        | Except.ok t => Except.ok (Act.press k :: t)
        | Except.error t => Except.error (Act.press k :: t)

/-- The release loop of do_command (lines 164-168). -/
def release_loop (env : KeyEnv) : List String → Except (List Act) (List Act)
  | [] => Except.ok []
  | k :: rest =>
    match env.const k with
    | Except.error _ => Except.error []
    | Except.ok code =>
      match env.releaseK code with
      | Except.error _ => Except.error [Act.release k]
      | Except.ok _ =>
        match release_loop env rest with
        | Except.ok t => Except.ok (Act.release k :: t)
        | Except.error t => Except.error (Act.release k :: t)

/-- The body of the `try:` block of do_command (lines 154-168): the three
sequential ifs; an exception anywhere aborts the rest (time.sleep never
raises). -/
def do_command_try (env : KeyEnv) (ks : List String) (a : Int) : Except (List Act) (List Act) :=
  match (if a == KEY_DOWN || a == KEY_DOWN_UP then press_loop env ks else Except.ok []) with
  | Except.error t => Except.error t
  | Except.ok t1 =>
    let t2 := if a == KEY_DOWN_UP then [Act.sleep10] else []
    match (if a == KEY_UP || a == KEY_DOWN_UP then release_loop env ks else Except.ok []) with
    | Except.error t3 => Except.error (t1 ++ t2 ++ t3)
    | Except.ok t3 => Except.ok (t1 ++ t2 ++ t3)

/-- MidiInputHandler.do_command (lines 151-170): the try body wrapped in
the bare `except:` clause, which logs and falls through, so the method
returns normally in every case.  The Bool records whether the
`log.exception("Error calling external command.")` report fired. -/
def do_command (env : KeyEnv) (ks : List String) (a : Int) : Except Unit (List Act × Bool) :=
  match do_command_try env ks a with
  | Except.ok t => Except.ok (t, false)
  | Except.error t => Except.ok (t, true)

/-- The trace of injection calls a dispatch performs for a given original
status. -/
def dispatch_trace (env : KeyEnv) (ks : List String) (status : Int) : List Act :=
  match do_command env ks (action_type_of status) with
  | Except.ok (t, _) => t
  | Except.error _ => []

/-- Outcome of MidiInputHandler.__call__ on one event (lines 96-130):
an exception escaping the handler, a non-matching event (`log.debug("no
cmd")`), or a dispatch with its trace and error-logged flag. -/
inductive HandleResult where
  | err
  | noMatch
  | dispatched (t : List Act) (errLogged : Bool)
  deriving DecidableEq, Repr

/-- MidiInputHandler.__call__ (lines 96-130): decode, lookup, derive the
action type from the original decoded status, dispatch. -/
def handle_event (rs : RuleSet) (env : KeyEnv) (ev : List Int) : HandleResult :=
  match decode_event ev with
  | Option.none => HandleResult.err
  | some e =>
    match lookup_command rs e.status e.channel e.data1 e.data2 with
    | Except.error _ => HandleResult.err
    | Except.ok Option.none => HandleResult.noMatch
    | Except.ok (some cmd) =>
      match do_command env cmd.keys (action_type_of e.status) with
      | Except.ok (t, b) => HandleResult.dispatched t b
      | Except.error _ => HandleResult.err

/- ---------------------------------------------------------------------
   Helper lemmas
   --------------------------------------------------------------------- -/

/-- The press loop never raises over a collaborator on which every call
succeeds and performs exactly one press per key, in order. -/
theorem press_loop_okEnv (ks : List String) :
    press_loop okEnv ks = Except.ok (ks.map Act.press) := by
  induction ks with
  | nil => rfl
  | cons k rest ih =>
    have hstep : press_loop okEnv (k :: rest)
        = match press_loop okEnv rest with
          | Except.ok t => Except.ok (Act.press k :: t)
          | Except.error t => Except.error (Act.press k :: t) := rfl
    rw [hstep, ih]
    rfl

/-- The release loop never raises over a collaborator on which every call
succeeds and performs exactly one release per key, in order. -/
theorem release_loop_okEnv (ks : List String) :
    release_loop okEnv ks = Except.ok (ks.map Act.release) := by
  induction ks with
  | nil => rfl
  | cons k rest ih =>
    have hstep : release_loop okEnv (k :: rest)
        = match release_loop okEnv rest with
          | Except.ok t => Except.ok (Act.release k :: t)
          | Except.error t => Except.error (Act.release k :: t) := rfl
    rw [hstep, ih]
    rfl

/-- Removing one dict key leaves lookups of every other key unchanged. -/
theorem dictGet_removeKey (rs : RuleSet) (k q : Option Int) (h : (q == k) = false) :
    dictGet (removeKey rs k) q = dictGet rs q := by
  induction rs with
  | nil => rfl
  | cons p rest ih =>
    cases hp : p.1 == k with
    | true =>
      have hpk : p.1 = k := eq_of_beq hp
      have hq : (p.1 == q) = false := by
        cases hpq : p.1 == q with
        | false => rfl
        | true =>
          have : p.1 = q := eq_of_beq hpq
          rw [hpk] at this
          rw [← this] at h
          rw [beq_self_eq_true] at h
          exact absurd h (by simp)
      simp [removeKey, dictGet, hp, hq, ih]
    | false =>
      cases hq : p.1 == q with
      | true => simp [removeKey, dictGet, hp, hq]
      | false => simp [removeKey, dictGet, hp, hq, ih]

/-- Whatever the input status, the status consulted after normalization is
never NOTE_OFF: a NOTE_OFF input is rewritten to NOTE_ON and every other
status passes through unchanged. -/
theorem normalize_status_ne_noteoff (st : Int) (d2 : Option Int) (st2 : Int)
    (d2n : Option Int) (h : normalize st d2 = Except.ok (st2, d2n)) :
    (st2 == NOTE_OFF) = false := by
  unfold normalize at h
  by_cases h1 : (st == NOTE_OFF) = true
  · rw [if_pos h1] at h
    cases h
    rfl
  · have h1f : (st == NOTE_OFF) = false := by
      cases hb : st == NOTE_OFF with
      | false => rfl
      | true => exact absurd hb h1
    rw [if_neg (by simp [h1f])] at h
    by_cases h2 : (st == CONTROLLER_CHANGE) = true
    · rw [if_pos h2] at h
      cases d2 with
      | none => exact Except.noConfusion h
      | some v =>
        have h' : (if v < 64 then Except.ok (st, some (63 : Int))
              else if 64 < v then Except.ok (st, some (65 : Int))
              else Except.ok (st, some v)) = Except.ok (st2, d2n) := h
        by_cases h3 : v < 64
        · rw [if_pos h3] at h'
          cases h'
          exact h1f
        · rw [if_neg h3] at h'
          by_cases h4 : 64 < v
          · rw [if_pos h4] at h'
            cases h'
            exact h1f
          · rw [if_neg h4] at h'
            cases h'
            exact h1f
    · rw [if_neg h2] at h
      cases h
      exact h1f

/- ---------------------------------------------------------------------
   Claim theorems
   --------------------------------------------------------------------- -/

/-- A rule with absent channel, matching data, for the C1 counterexample:
its status and data criteria are satisfied by a NoteOn event with data1 =
60 on any channel. -/
def c1rule : KeyStroke :=
  { name := "any"
    description := ""
    status := "noteon"
    channel := Option.none
    data := KSData.single 60
    keys := ["a"] }

/-- C1 counterexample: the claim says a rule with absent channel matches a
channel voice event (here NoteOn, channel 1, data1 60) whose status and
data criteria it satisfies.  The lookup in fact returns no rule for that
event; the same rule does match once the channel is absent (a system
event), showing its status and data criteria are satisfiable. -/
theorem c1_absent_channel_cex :
    lookup_command [(some NOTE_ON, [c1rule])] NOTE_ON (some 1) (some 60) Option.none
      = Except.ok Option.none ∧
    lookup_command [(some NOTE_ON, [c1rule])] NOTE_ON Option.none (some 60) Option.none
      = Except.ok (some c1rule) :=
  ⟨rfl, rfl⟩

/-- C1 amended: when the incoming event carries a channel, the matching
loop skips every rule whose channel differs from the event channel, and in
particular every rule whose channel is absent; an absent-channel rule can
therefore match only events whose own channel is absent. -/
theorem c1_absent_channel_amended :
    ∀ (st : Int) (c : Int) (d1 d2 : Option Int) (k : KeyStroke) (rest : List KeyStroke),
      k.channel = Option.none →
      rule_step st (some c) d1 d2 k = Except.ok false ∧
      find_match st (some c) d1 d2 (k :: rest) = find_match st (some c) d1 d2 rest := by
  intro st c d1 d2 k rest h
  have hb : ((Option.none : Option Int) == some c) = false := rfl
  have hs : rule_step st (some c) d1 d2 k = Except.ok false := by
    simp [rule_step, h, hb]
  exact ⟨hs, by simp [find_match, hs]⟩

/-- Witness for the amended C1 theorem at a concrete rule and event. -/
theorem c1_absent_channel_amended_wit :
    rule_step NOTE_ON (some 1) (some 60) Option.none c1rule = Except.ok false ∧
    find_match NOTE_ON (some 1) (some 60) Option.none [c1rule]
      = find_match NOTE_ON (some 1) (some 60) Option.none [] :=
  c1_absent_channel_amended NOTE_ON 1 (some 60) Option.none c1rule [] rfl

/-- C5: for every rule set and every channel, data1, data2, a NoteOff
lookup returns exactly what the NoteOn lookup with the same arguments
returns, because normalization rewrites NOTE_OFF to NOTE_ON and leaves a
NoteOn input untouched. -/
theorem c5_noteoff_noteon_same_lookup :
    ∀ (rs : RuleSet) (ch d1 d2 : Option Int),
      lookup_command rs NOTE_OFF ch d1 d2 = lookup_command rs NOTE_ON ch d1 d2 := by
  intro rs ch d1 d2
  rfl

/-- A noteoff-status configuration rule for C10. -/
def c10spec : CmdSpec :=
  { name := "no"
    description := ""
    status := "noteoff"
    channel := some 1
    data := YamlVal.vint 60
    keys := "a" }

/-- C10: a rule configured with status noteoff resolves to the NOTE_OFF
code and is stored in that bucket, yet every lookup gives the same result
on the rule set with the entire NOTE_OFF bucket removed: rules stored
under NOTE_OFF are unreachable by any input tuple. -/
theorem c10_noteoff_rules_unreachable :
    resolve_status "noteoff" = some NOTE_OFF ∧
    load_config [c10spec]
      = Except.ok [(some NOTE_OFF, [mkKeyStroke c10spec (KSData.single 60)])] ∧
    ∀ (rs : RuleSet) (st : Int) (ch d1 d2 : Option Int),
      lookup_command rs st ch d1 d2
        = lookup_command (removeKey rs (some NOTE_OFF)) st ch d1 d2 := by
  refine ⟨rfl, rfl, ?_⟩
  intro rs st ch d1 d2
  cases h : normalize st d2 with
  | error e => simp [lookup_command, h]
  | ok p =>
    obtain ⟨st2, d2n⟩ := p
    have hne : (st2 == NOTE_OFF) = false := normalize_status_ne_noteoff st d2 st2 d2n h
    have hq : ((some st2 : Option Int) == some NOTE_OFF) = false := hne
    simp [lookup_command, h, dictGet_removeKey rs (some NOTE_OFF) (some st2) hq]

/-- C4: for every ControllerChange event the normalization bucketing
rewrites data2 below 64 to 63 and above 64 to 65 and leaves 64 unchanged,
and an event with data2 = 64 matches neither a rule targeting bucket 63
nor one targeting bucket 65 (for any channel and data1). -/
theorem c4_cc_bucket_normalization :
    ∀ (d2 : Int) (ch d1 : Option Int) (k : KeyStroke) (n : Int),
      normalize CONTROLLER_CHANGE (some d2)
        = Except.ok (CONTROLLER_CHANGE,
            some (if d2 < 64 then 63 else if 64 < d2 then 65 else d2)) ∧
      ((k.data = KSData.list [n, 63] ∨ k.data = KSData.list [n, 65]) →
        lookup_command [(some CONTROLLER_CHANGE, [k])] CONTROLLER_CHANGE ch d1 (some 64)
          = Except.ok Option.none) := by
  intro d2 ch d1 k n
  constructor
  · have hn : normalize CONTROLLER_CHANGE (some d2)
        = (if d2 < 64 then Except.ok (CONTROLLER_CHANGE, some (63 : Int))
           else if 64 < d2 then Except.ok (CONTROLLER_CHANGE, some (65 : Int))
           else Except.ok (CONTROLLER_CHANGE, some d2)) := rfl
    rw [hn]
    by_cases h1 : d2 < 64
    · simp [h1]
    · by_cases h2 : 64 < d2
      · simp [h1, h2]
      · simp [h1, h2]
  · intro h
    have e1 : (CONTROLLER_CHANGE == NOTE_ON) = false := rfl
    have e2 : (some (63 : Int) == some (64 : Int)) = false := rfl
    have e3 : (some (65 : Int) == some (64 : Int)) = false := rfl
    have hb : rule_body CONTROLLER_CHANGE d1 (some 64) k = Except.ok false := by
      rcases h with h | h <;> simp [rule_body, h, e1, pair_match, e2, e3]
    have hs : rule_step CONTROLLER_CHANGE ch d1 (some 64) k = Except.ok false := by
      cases ch with
      | none => exact hb
      | some c => simp [rule_step, hb, ite_self]
    have hl : lookup_command [(some CONTROLLER_CHANGE, [k])] CONTROLLER_CHANGE ch d1 (some 64)
        = find_match CONTROLLER_CHANGE ch d1 (some 64) [k] := rfl
    rw [hl]
    simp [find_match, hs]

/-- A rule targeting bucket 63 for the C4 witness. -/
def c4rule : KeyStroke :=
  { name := "w"
    description := ""
    status := "controllerchange"
    channel := Option.none
    data := KSData.list [14, 63]
    keys := ["x"] }

/-- Witness for C4: data2 = 0 lands in bucket 63, and the midpoint event
data2 = 64 fails to match the concrete bucket-63 rule. -/
theorem c4_cc_bucket_normalization_wit :
    normalize CONTROLLER_CHANGE (some 0) = Except.ok (CONTROLLER_CHANGE, some 63) ∧
    lookup_command [(some CONTROLLER_CHANGE, [c4rule])] CONTROLLER_CHANGE Option.none
        (some 14) (some 64) = Except.ok Option.none :=
  ⟨(c4_cc_bucket_normalization 0 Option.none (some 14) c4rule 14).1,
   (c4_cc_bucket_normalization 64 Option.none (some 14) c4rule 14).2 (Or.inl rfl)⟩

/-- C6: the action type is derived from the original, non-normalized
status: NoteOff gives KEY_UP and a release-only trace, ControllerChange
gives KEY_DOWN_UP and a press-sleep-release trace, and every other
recognized status gives KEY_DOWN and a press-only trace, for any key
list. -/
theorem c6_action_type_from_original_status :
    ∀ ks : List String,
      action_type_of NOTE_OFF = KEY_UP ∧
      action_type_of CONTROLLER_CHANGE = KEY_DOWN_UP ∧
      action_type_of NOTE_ON = KEY_DOWN ∧
      action_type_of PROGRAM_CHANGE = KEY_DOWN ∧
      action_type_of PITCH_BEND = KEY_DOWN ∧
      action_type_of POLY_PRESSURE = KEY_DOWN ∧
      action_type_of CHANNEL_PRESSURE = KEY_DOWN ∧
      dispatch_trace okEnv ks NOTE_OFF = ks.map Act.release ∧
      dispatch_trace okEnv ks CONTROLLER_CHANGE
        = ks.map Act.press ++ Act.sleep10 :: ks.map Act.release ∧
      dispatch_trace okEnv ks NOTE_ON = ks.map Act.press ∧
      dispatch_trace okEnv ks PROGRAM_CHANGE = ks.map Act.press ∧
      dispatch_trace okEnv ks PITCH_BEND = ks.map Act.press ∧
      dispatch_trace okEnv ks POLY_PRESSURE = ks.map Act.press ∧
      dispatch_trace okEnv ks CHANNEL_PRESSURE = ks.map Act.press := by
  intro ks
  have htryUp : do_command_try okEnv ks KEY_UP
      = (match release_loop okEnv ks with
         | Except.error t3 => Except.error ([] ++ [] ++ t3)
         | Except.ok t3 => Except.ok ([] ++ [] ++ t3)) := rfl
  rw [release_loop_okEnv] at htryUp
  have htryDown : do_command_try okEnv ks KEY_DOWN
      = (match press_loop okEnv ks with
         | Except.error t => Except.error t
         | Except.ok t1 => Except.ok (t1 ++ [] ++ [])) := rfl
  rw [press_loop_okEnv] at htryDown
  have htryDU : do_command_try okEnv ks KEY_DOWN_UP
      = (match press_loop okEnv ks with
         | Except.error t => Except.error t
         | Except.ok t1 =>
           match release_loop okEnv ks with
           | Except.error t3 => Except.error (t1 ++ [Act.sleep10] ++ t3)
           | Except.ok t3 => Except.ok (t1 ++ [Act.sleep10] ++ t3)) := rfl
  rw [press_loop_okEnv, release_loop_okEnv] at htryDU
  have hup : ∀ st : Int, action_type_of st = KEY_UP →
      dispatch_trace okEnv ks st = ks.map Act.release := by
    intro st hst
    have h1 : dispatch_trace okEnv ks st
        = (match do_command okEnv ks (action_type_of st) with
           | Except.ok (t, _) => t
           | Except.error _ => []) := rfl
    have h2 : do_command okEnv ks KEY_UP
        = (match do_command_try okEnv ks KEY_UP with
           | Except.ok t => Except.ok (t, false)
           | Except.error t => Except.ok (t, true)) := rfl
    rw [h1, hst, h2, htryUp]
    simp
  have hdown : ∀ st : Int, action_type_of st = KEY_DOWN →
      dispatch_trace okEnv ks st = ks.map Act.press := by
    intro st hst
    have h1 : dispatch_trace okEnv ks st
        = (match do_command okEnv ks (action_type_of st) with
           | Except.ok (t, _) => t
           | Except.error _ => []) := rfl
    have h2 : do_command okEnv ks KEY_DOWN
        = (match do_command_try okEnv ks KEY_DOWN with
           | Except.ok t => Except.ok (t, false)
           | Except.error t => Except.ok (t, true)) := rfl
    rw [h1, hst, h2, htryDown]
    simp
  have hdu : dispatch_trace okEnv ks CONTROLLER_CHANGE
      = ks.map Act.press ++ Act.sleep10 :: ks.map Act.release := by
    have h1 : dispatch_trace okEnv ks CONTROLLER_CHANGE
        = (match do_command okEnv ks KEY_DOWN_UP with
           | Except.ok (t, _) => t
           | Except.error _ => []) := rfl
    have h2 : do_command okEnv ks KEY_DOWN_UP
        = (match do_command_try okEnv ks KEY_DOWN_UP with
           | Except.ok t => Except.ok (t, false)
           | Except.error t => Except.ok (t, true)) := rfl
    rw [h1, h2, htryDU]
    simp
  exact ⟨rfl, rfl, rfl, rfl, rfl, rfl, rfl,
    hup NOTE_OFF rfl, hdu, hdown NOTE_ON rfl, hdown PROGRAM_CHANGE rfl,
    hdown PITCH_BEND rfl, hdown POLY_PRESSURE rfl, hdown CHANNEL_PRESSURE rfl⟩

/-- C9: the bare except clause of do_command catches every exception the
key-injection collaborator can raise, in any phase and for any key, so
dispatch always returns normally; consequently, once an event decodes and
matches a rule, the handler reports a dispatch outcome (the listening loop
gets control back) no matter how the collaborator fails. -/
theorem c9_dispatch_errors_recovered :
    ∀ (env : KeyEnv) (ks : List String) (a : Int) (rs : RuleSet) (ev : List Int)
      (e : DecodedEvent) (k : KeyStroke),
      (∃ r, do_command env ks a = Except.ok r) ∧
      (decode_event ev = some e →
       lookup_command rs e.status e.channel e.data1 e.data2 = Except.ok (some k) →
       ∃ t b, handle_event rs env ev = HandleResult.dispatched t b) := by
  intro env ks a rs ev e k
  constructor
  · cases h : do_command_try env ks a with
    | ok t => exact ⟨(t, false), by simp [do_command, h]⟩
    | error t => exact ⟨(t, true), by simp [do_command, h]⟩
  · intro h1 h2
    have hk : ∃ t b, do_command env k.keys (action_type_of e.status) = Except.ok (t, b) := by
      cases h : do_command_try env k.keys (action_type_of e.status) with
      | ok t => exact ⟨t, false, by simp [do_command, h]⟩
      | error t => exact ⟨t, true, by simp [do_command, h]⟩
    obtain ⟨t, b, hr⟩ := hk
    exact ⟨t, b, by simp [handle_event, h1, h2, hr]⟩

/-- The C3 rule amended to target bucket 65, shared by the C3 and C9
developments. -/
def c3rule65 : KeyStroke :=
  { name := "cc"
    description := ""
    status := "controllerchange"
    channel := some 16
    data := KSData.list [14, 65]
    keys := ["F2"] }

/-- The rule set loaded from the amended C3 configuration. -/
def c3rs65 : RuleSet := [(some CONTROLLER_CHANGE, [c3rule65])]

/-- Witness for C9: with a collaborator on which key resolution always
raises, dispatch still returns normally, and the handler still reports a
dispatch outcome for a matching ControllerChange event. -/
theorem c9_dispatch_errors_recovered_wit :
    (∃ r, do_command badEnv ["F2"] KEY_DOWN_UP = Except.ok r) ∧
    (∃ t b, handle_event c3rs65 badEnv [0xBF, 0x0E, 0x7F] = HandleResult.dispatched t b) := by
  have h := c9_dispatch_errors_recovered badEnv ["F2"] KEY_DOWN_UP c3rs65
    [0xBF, 0x0E, 0x7F] ⟨0xB0, some 16, some 14, some 127⟩ c3rule65
  exact ⟨h.1, h.2 rfl rfl⟩

/-- The C2 configuration rule: programchange on channel 16 with single
integer data 5. -/
def c2spec : CmdSpec :=
  { name := "pc"
    description := ""
    status := "programchange"
    channel := some 16
    data := YamlVal.vint 5
    keys := "F1" }

/-- The KeyStroke object the loader builds from c2spec. -/
def c2rule : KeyStroke :=
  { name := "pc"
    description := ""
    status := "programchange"
    channel := some 16
    data := KSData.single 5
    keys := ["F1"] }

/-- The rule set loaded from the C2 configuration. -/
def c2rs : RuleSet := [(some PROGRAM_CHANGE, [c2rule])]

/-- C2 counterexample: the bytes 0xCF 0x05 decode exactly as the claim
says (status 0xC0, channel 16, data1 5), but the Matcher returns no rule
for the loaded configuration and the handler performs no action, because
the single-integer branch of the matching test fires only for NOTE_ON
lookups; the claim predicted a match and a press-only action on F1. -/
theorem c2_programchange_scenario_cex :
    load_config [c2spec] = Except.ok c2rs ∧
    decode_event [0xCF, 0x05]
      = some { status := 0xC0, channel := some 16, data1 := some 5, data2 := Option.none } ∧
    lookup_command c2rs 0xC0 (some 16) (some 5) Option.none = Except.ok Option.none ∧
    handle_event c2rs okEnv [0xCF, 0x05] = HandleResult.noMatch :=
  ⟨rfl, rfl, rfl, rfl⟩

/-- C2 amended: the decode is as stated, but a rule whose data is a single
integer is never matched by a ProgramChange lookup (the single-value
comparison is guarded by status == NOTE_ON), so the Matcher returns no
rule and no keystroke action occurs. -/
theorem c2_programchange_scenario_amended :
    ∀ (ch d1 d2 : Option Int) (k : KeyStroke) (n : Int),
      k.data = KSData.single n →
      rule_body PROGRAM_CHANGE d1 d2 k = Except.ok false ∧
      lookup_command [(some PROGRAM_CHANGE, [k])] PROGRAM_CHANGE ch d1 d2
        = Except.ok Option.none := by
  intro ch d1 d2 k n h
  have e1 : (PROGRAM_CHANGE == NOTE_ON) = false := rfl
  have hb : rule_body PROGRAM_CHANGE d1 d2 k = Except.ok false := by
    simp [rule_body, h, e1]
  have hs : rule_step PROGRAM_CHANGE ch d1 d2 k = Except.ok false := by
    cases ch with
    | none => exact hb
    | some c => simp [rule_step, hb, ite_self]
  have hl : lookup_command [(some PROGRAM_CHANGE, [k])] PROGRAM_CHANGE ch d1 d2
      = find_match PROGRAM_CHANGE ch d1 d2 [k] := rfl
  refine ⟨hb, ?_⟩
  rw [hl]
  simp [find_match, hs]

/-- Witness for the amended C2 theorem at the concrete scenario inputs. -/
theorem c2_programchange_scenario_amended_wit :
    rule_body PROGRAM_CHANGE (some 5) Option.none c2rule = Except.ok false ∧
    lookup_command [(some PROGRAM_CHANGE, [c2rule])] PROGRAM_CHANGE (some 16) (some 5)
        Option.none = Except.ok Option.none :=
  c2_programchange_scenario_amended (some 16) (some 5) Option.none c2rule 5 rfl

/-- The C3 configuration rule as the claim states it: controllerchange on
channel 16 with pair data "14 127". -/
def c3spec : CmdSpec :=
  { name := "cc"
    description := ""
    status := "controllerchange"
    channel := some 16
    data := YamlVal.vstr "14 127"
    keys := "F2" }

/-- The KeyStroke object the loader builds from c3spec. -/
def c3rule : KeyStroke :=
  { name := "cc"
    description := ""
    status := "controllerchange"
    channel := some 16
    data := KSData.list [14, 127]
    keys := ["F2"] }

/-- The rule set loaded from the C3 configuration as the claim states
it. -/
def c3rs : RuleSet := [(some CONTROLLER_CHANGE, [c3rule])]

/-- C3 counterexample: the incoming bytes 0xBF 0x0E 0x7F normalize data2
from 127 to 65, but the rule configured with data "14 127" keeps the raw
pair [14, 127], which is compared against the normalized (14, 65) and
fails, so the Matcher returns no rule and nothing is pressed; the claim
predicted a match and a press-sleep-release of F2. -/
theorem c3_controllerchange_scenario_cex :
    load_config [c3spec] = Except.ok c3rs ∧
    decode_event [0xBF, 0x0E, 0x7F]
      = some { status := 0xB0, channel := some 16, data1 := some 14, data2 := some 127 } ∧
    lookup_command c3rs 0xB0 (some 16) (some 14) (some 127) = Except.ok Option.none ∧
    handle_event c3rs okEnv [0xBF, 0x0E, 0x7F] = HandleResult.noMatch :=
  ⟨rfl, rfl, rfl, rfl⟩

/-- The C3 configuration amended to target the up-bucket value 65. -/
def c3spec65 : CmdSpec :=
  { name := "cc"
    description := ""
    status := "controllerchange"
    channel := some 16
    data := YamlVal.vstr "14 65"
    keys := "F2" }

/-- C3 amended: rule data is compared against the normalized event pair
and is not itself normalized, so the scenario holds once the rule data is
written as "14 65": the incoming bytes 0xBF 0x0E 0x7F (data2 127,
normalized to 65) match the rule and the dispatch presses F2, sleeps 10 ms
and releases F2. -/
theorem c3_controllerchange_scenario_amended :
    load_config [c3spec65] = Except.ok c3rs65 ∧
    lookup_command c3rs65 CONTROLLER_CHANGE (some 16) (some 14) (some 127)
      = Except.ok (some c3rule65) ∧
    handle_event c3rs65 okEnv [0xBF, 0x0E, 0x7F]
      = HandleResult.dispatched [Act.press "F2", Act.sleep10, Act.release "F2"] false :=
  ⟨rfl, rfl, rfl⟩

/-- A configuration rule with an unrecognized, non-numeric status name,
for C7. -/
def c7spec : CmdSpec :=
  { name := "bad"
    description := ""
    status := "bogus"
    channel := Option.none
    data := YamlVal.vnone
    keys := "a" }

/-- C7 counterexample: a rule whose status resolves neither to a known
name nor to an integer triggers the error report, yet load_config still
succeeds (the process does not refuse to start) and the rule is retained
in the RuleSet, under the absent status key. -/
theorem c7_bad_status_not_fatal_cex :
    status_error "bogus" = true ∧
    load_errors [c7spec] = ["bogus"] ∧
    load_config [c7spec] = Except.ok [(Option.none, [mkKeyStroke c7spec KSData.none])] :=
  ⟨rfl, rfl, rfl⟩

/-- C7 amended: an unrecognized status name is reported via the error log
but is never fatal: for every rule record whose data field parses,
load_config completes successfully and appends the rule under whatever
key the status resolves to, the absent key included. -/
theorem c7_bad_status_amended :
    ∀ (c : CmdSpec) (d : KSData),
      parse_data c.data = Except.ok d →
      load_config [c] = Except.ok [(resolve_status c.status, [mkKeyStroke c d])] := by
  intro c d h
  simp [load_config, load_config_aux, load_step, h, dictAppend]

/-- Witness for the amended C7 theorem at the bogus-status rule. -/
theorem c7_bad_status_amended_wit :
    load_config [c7spec]
      = Except.ok [(resolve_status c7spec.status, [mkKeyStroke c7spec KSData.none])] :=
  c7_bad_status_amended c7spec KSData.none rfl

/-- A configuration rule with a raw numeric status string, for C8. -/
def c8spec : CmdSpec :=
  { name := "num"
    description := ""
    status := "144"
    channel := some 1
    data := YamlVal.vint 60
    keys := "a" }

/-- The KeyStroke object the loader builds from c8spec. -/
def c8rule : KeyStroke :=
  { name := "num"
    description := ""
    status := "144"
    channel := some 1
    data := KSData.single 60
    keys := ["a"] }

/-- C8: int("144") succeeds, so no error is logged, but the parsed
integer is discarded and the rule lands under the absent status key, where
no lookup can reach it: for every input tuple the lookup over this rule
set either returns no rule or raises (the ControllerChange TypeError path),
never a match.  The claim says the rule participates in matching. -/
theorem c8_numeric_status_bug :
    pyIntParses "144" = true ∧
    status_error "144" = false ∧
    load_config [c8spec] = Except.ok [(Option.none, [c8rule])] ∧
    ∀ (st : Int) (ch d1 d2 : Option Int),
      lookup_command [(Option.none, [c8rule])] st ch d1 d2 = Except.ok Option.none ∨
      lookup_command [(Option.none, [c8rule])] st ch d1 d2 = Except.error () := by
  refine ⟨rfl, rfl, rfl, ?_⟩
  intro st ch d1 d2
  cases h : normalize st d2 with
  | error e => right; simp [lookup_command, h]
  | ok p =>
    obtain ⟨st2, d2n⟩ := p
    left
    have hd : dictGet [(Option.none, [c8rule])] (some st2) = [] := rfl
    simp [lookup_command, h, hd, find_match]

end Midi2Keystroke
